import Mathlib

/-!
Verification development for the mqtt2notif message-to-notification pipeline
(`mqtt2notif.py`).  The core of the program is the `on_message` handler: it
parses a JSON payload, extracts fields with `dict.get` defaults, logs a
console block when verbose, maps the urgency string to a notification
urgency, selects one of four image-presentation cases (composite, preview
only, icon only, none) and shows the notification.  `create_composite_image`
overlays the icon (resized to 64x64 with the LANCZOS filter) on the preview
with an 8-pixel corner margin and a soft shadow.

External collaborators (Python stdlib and C libraries) are modelled as
oracle functions collected in `Env`:
- `json.loads` outcomes arrive as `Option Json` (`none` = `JSONDecodeError`);
- `base64.b64decode` is `Env.b64decode` (it raises on bad padding; calling it
  on a non-string raises `TypeError`, hardcoded in `b64field`);
- `PIL.Image.open(...).convert("RGBA")` is `Env.pilOpen`;
- `GdkPixbuf.Pixbuf.new_from_stream` on raw bytes is `Env.pixbufFromBytes`;
- `pil_to_pixbuf` (PNG save + pixbuf load) is `Env.pilToPixbuf`;
- `datetime.fromtimestamp(ms / 1000.0).strftime(...)` is `Env.formatTime`
  (`none` = any exception, e.g. value out of range);
- Python `str()` used by f-strings is `Env.pyStr`;
- `notification.set_hint("image-data", ...)` success is `Env.attachOk`;
- `notification.show()` success is `Env.showOk`.

PIL image operations are modelled symbolically by the inductive `PILImage`,
which records exactly which operations the source performs (resize with a
given filter, ellipse drawing, alpha-masked paste at a position), so that
theorems can inspect the structure of the composite the code builds.
-/

namespace Mqtt2Notif

/-- JSON values as produced by `json.loads`.  Numbers are modelled as
integers (the fields the program reads numerically are integer-valued);
objects are association lists — `json.loads` collapses duplicate keys, so
parsed objects have unique keys. -/
inductive Json where
  | null
  | bool (b : Bool)
  | num (n : Int)
  | str (s : String)
  | arr (elems : List Json)
  | obj (fields : List (String × Json))

/-- Raw byte buffers (e.g. the result of base64 decoding). -/
abbrev Bytes := List Nat

/-- Python truthiness of a JSON value (`if value:`). -/
def Json.truthy : Json → Bool
  | .null => false
  | .bool b => b
  | .num n => n != 0
  | .str s => s != ""
  | .arr xs => !xs.isEmpty
  | .obj kvs => !kvs.isEmpty

/-- Whether the value is a JSON string (a Python `str`). -/
def Json.isStr : Json → Bool
  | .str _ => true
  | _ => false

/-- The underlying string of a JSON string (only used under an `isStr`
guard). -/
def Json.asString : Json → String
  | .str s => s
  | _ => ""

/-- Python `value == "literal"`: equality of a JSON value with a string
literal.  For non-string values Python `==` returns `False`. -/
def Json.eqStr : Json → String → Bool
  | .str s, t => s == t
  | _, _ => false

/-- Key lookup in a parsed JSON object (Python `dict` lookup; keys are
unique after `json.loads`). -/
def lookupKey : List (String × Json) → String → Option Json
  | [], _ => none
  | (k', v) :: rest, k => if k' = k then some v else lookupKey rest k

/-- `data[k]` if present. -/
def jget : Json → String → Option Json
  | .obj kvs, k => lookupKey kvs k
  | _, _ => none

/-- Python `data.get(k, d)`: the stored value when the key is present
(whatever its type), the default otherwise. -/
def jgetD (data : Json) (k : String) (d : Json) : Json :=
  (jget data k).getD d

/-- A `GdkPixbuf.Pixbuf` together with the six metadata fields the
notification hint sends verbatim. -/
structure Pixbuf where
  width : Int
  height : Int
  rowstride : Int
  hasAlpha : Bool
  bitsPerSample : Int
  nChannels : Int
  pixels : Bytes

/-- PIL resampling filters (`Image.Resampling`). -/
inductive Resampling where
  | lanczos
  | nearest
  | bilinear
  | bicubic
  deriving DecidableEq

/-- Symbolic PIL images: the term records the operations the source
performs, so theorems can inspect the built composite. -/
inductive PILImage where
  /-- A decoded RGBA image (`Image.open(...).convert("RGBA")`). -/
  | source (w h : Int) (data : Bytes)
  /-- `img.resize((w, h), filter)`. -/
  | resized (src : PILImage) (w h : Int) (filter : Resampling)
  /-- `Image.new("RGBA", (w, h), (r, g, b, a))`. -/
  | blank (w h : Int) (r g b a : Int)
  /-- `ImageDraw.Draw(base).ellipse([x0, y0, x1, y1], fill=(r, g, b, a))`. -/
  | ellipse (base : PILImage) (x0 y0 x1 y1 : Int) (r g b a : Int)
  /-- `base.paste(overlay, (x, y), mask)`; `masked` records whether the
  overlay itself was passed as the alpha mask. -/
  | pasted (base overlay : PILImage) (x y : Int) (masked : Bool)

/-- Width of a PIL image (pastes and draws keep the base's size). -/
def PILImage.width : PILImage → Int
  | .source w _ _ => w
  | .resized _ w _ _ => w
  | .blank w _ _ _ _ _ => w
  | .ellipse base _ _ _ _ _ _ _ _ => base.width
  | .pasted base _ _ _ _ => base.width

/-- Height of a PIL image. -/
def PILImage.height : PILImage → Int
  | .source _ h _ => h
  | .resized _ _ h _ => h
  | .blank _ h _ _ _ _ => h
  | .ellipse base _ _ _ _ _ _ _ _ => base.height
  | .pasted base _ _ _ _ => base.height

/-- The overlay of the outermost paste, if any. -/
def PILImage.topOverlay : PILImage → Option PILImage
  | .pasted _ overlay _ _ _ => some overlay
  | _ => none

/-- The position of the outermost paste, if any. -/
def PILImage.topXY : PILImage → Option (Int × Int)
  | .pasted _ _ x y _ => some (x, y)
  | _ => none

/-- The decoded Notification Event: the ten values `on_message` extracts
from the parsed payload (lines 239-248 of the source).  `dict.get` keeps
whatever value is stored, so fields are raw JSON values. -/
structure Event where
  package : Json
  app : Json
  title : Json
  text : Json
  timestamp : Json
  importance : Json
  urgency : Json
  category : Json
  icon : Json
  preview : Json

/-- The three libnotify urgency levels. -/
inductive Urgency where
  | critical
  | normal
  | low
  deriving DecidableEq

/-- The notification Request handed to the sink: title (`"{app}: {title}"`),
body, urgency, optional category hint, optional image attachment. -/
structure Request where
  title : String
  body : Json
  urgency : Urgency
  category : Option String
  image : Option Pixbuf

/-- Outcome of handling one inbound message. -/
inductive Outcome where
  /-- `json.JSONDecodeError` was caught: message logged and discarded. -/
  | malformed
  /-- The generic `except` at the end of `on_message` caught an error
  raised during processing (e.g. payload not a JSON object, or the
  verbose log block failing on a non-string urgency). -/
  | processError
  /-- The `except` around the notification block caught an error
  (`Notify.Notification.new` / `set_hint` / `show` raised). -/
  | showError
  /-- The notification was shown with this Request. -/
  | shown (req : Request)

/-- Coarse console-log events (console formatting itself is an excluded
collaborator; entries record which prints ran and the data they carry). -/
inductive LogLine where
  | notifHeader (icon app urgencyUpper : String)
  | field (name value : String)
  | compositeAttempt
  | compositeSet
  | compositeSetError
  | compositeFallback
  | previewSet
  | previewError
  | iconSet
  | iconError
  | showError
  | malformedJson
  | processingError
  deriving DecidableEq

/-- Oracles for the external collaborators (see the header comment). -/
structure Env where
  pilAvailable : Bool
  showOk : Bool
  b64decode : String → Option Bytes
  pilOpen : Bytes → Option PILImage
  pixbufFromBytes : Bytes → Option Pixbuf
  pilToPixbuf : PILImage → Option Pixbuf
  attachOk : Pixbuf → Bool
  formatTime : Int → Option String
  pyStr : Json → String

/-- The process-global state `on_message` touches: the `VERBOSE` flag it
reads and the console log it appends to. -/
structure State where
  verbose : Bool
  log : List LogLine

/-- Field extraction with `dict.get` defaults (source lines 239-248). -/
def decodeEvent (data : Json) : Event where
  package := jgetD data "package" (.str "unknown")
  app := jgetD data "app" (.str "Unknown App")
  title := jgetD data "title" (.str "Notification")
  text := jgetD data "text" (.str "")
  timestamp := jgetD data "timestamp" (.num 0)
  importance := jgetD data "importance" (.num 3)
  urgency := jgetD data "urgency" (.str "normal")
  category := jgetD data "category" (.str "")
  icon := jgetD data "icon" .null
  preview := jgetD data "previewImage" .null

/-- Urgency mapping (source lines 291-296): `== "high"` gives CRITICAL,
`== "low" or == "minimal"` gives LOW, anything else NORMAL. -/
def mapUrgency (urgency : Json) : Urgency :=
  if urgency.eqStr "high" then .critical
  else if urgency.eqStr "low" || urgency.eqStr "minimal" then .low
  else .normal

/-- The urgency emoji picked by the verbose log header (a dict `.get` with
default 🟢). -/
def urgencyIcon (u : String) : String :=
  if u = "high" then "🔴"
  else if u = "normal" then "🟢"
  else if u = "low" then "🔵"
  else if u = "minimal" then "⚪"
  else "🟢"

/-- The displayed timestamp (source lines 264-269):
`datetime.fromtimestamp(timestamp / 1000.0).strftime(...)` inside a
`try`, `"Unknown"` on any exception.  Python `bool` divides like an int;
any other non-numeric value raises `TypeError`, caught the same way. -/
def formatTimestamp (env : Env) : Json → String
  | .num n => (env.formatTime n).getD "Unknown"
  | .bool b => (env.formatTime (if b then 1 else 0)).getD "Unknown"
  | _ => "Unknown"

/-- The verbose console block (source lines 251-281), as coarse log
events.  Only reached when the urgency is a string (otherwise
`urgency.upper()` / dict hashing raises first). -/
def recvLog (env : Env) (e : Event) : List LogLine :=
  [LogLine.notifHeader (urgencyIcon e.urgency.asString) (env.pyStr e.app)
      e.urgency.asString.toUpper,
    LogLine.field "Title" (env.pyStr e.title),
    LogLine.field "Text" (env.pyStr e.text)]
  ++ (if e.category.truthy then [LogLine.field "Category" (env.pyStr e.category)] else [])
  ++ [LogLine.field "Time" (formatTimestamp env e.timestamp),
    LogLine.field "Package" (env.pyStr e.package),
    LogLine.field "Urgency" (env.pyStr e.urgency ++ " importance: " ++ env.pyStr e.importance)]

/-- Whether `Notify.Notification.new(title, body, None)` accepts the body:
the body parameter is a nullable string, any other type raises
`TypeError`. -/
def newOk : Json → Bool
  | .str _ => true
  | .null => true
  | _ => false

/-- Whether setting the category hint raises: `GLib.Variant.new_string`
on a non-string raises `TypeError`; the hint is only set for a truthy
category. -/
def categoryBad (c : Json) : Bool :=
  c.truthy && !c.isStr

/-- `base64.b64decode` applied to a stored JSON field value: raises
`TypeError` on non-strings, otherwise decodes per the oracle. -/
def b64field (env : Env) : Json → Option Bytes
  | .str s => env.b64decode s
  | _ => none

/-- Icon placement (source lines 185-200): 8-pixel margin from the chosen
corner of the 64x64 icon inside a `w` by `h` canvas; any unrecognized
position falls to the final `else` (top-left margin). -/
def iconPlacement (w h : Int) (position : String) : Int × Int :=
  let margin : Int := 8
  let iconW : Int := 64
  let iconH : Int := 64
  if position = "bottom-right" then (w - iconW - margin, h - iconH - margin)
  else if position = "top-right" then (w - iconW - margin, margin)
  else if position = "top-left" then (margin, margin)
  else if position = "bottom-left" then (margin, h - iconH - margin)
  else (margin, margin)

/-- The shadow image (source lines 203-207): a transparent 64x64 canvas
with a semi-transparent black ellipse inset by 4px. -/
def shadowImage : PILImage :=
  PILImage.ellipse (PILImage.blank 64 64 0 0 0 0) 4 4 (64 - 4) (64 - 4) 0 0 0 100

/-- The pure compositing steps of `create_composite_image` on the two
decoded PIL images (source lines 177-211): clone the preview, resize the
icon to 64x64 with LANCZOS, paste the shadow at `(x+2, y+2)` and the icon
at `(x, y)`, each masked by its own alpha. -/
def compositePIL (iconImg previewImg : PILImage) (position : String) : PILImage :=
  let iconResized := PILImage.resized iconImg 64 64 .lanczos
  let xy := iconPlacement previewImg.width previewImg.height position
  let withShadow := PILImage.pasted previewImg shadowImage (xy.1 + 2) (xy.2 + 2) true
  PILImage.pasted withShadow iconResized xy.1 xy.2 true

/-- `create_composite_image` (source lines 153-219): `None` when Pillow is
missing; otherwise base64-decode both inputs, open both as RGBA PIL
images, composite, and convert back to a pixbuf — any step's failure is
caught by the surrounding `try` and yields `None`. -/
def create_composite_image (env : Env) (iconBase64 previewBase64 : Json)
    (position : String) : Option Pixbuf :=
  if !env.pilAvailable then none
  else
    match b64field env iconBase64 with
    | none => none
    | some iconData =>
      match b64field env previewBase64 with
      | none => none
      | some previewData =>
        match env.pilOpen iconData with
        | none => none
        | some iconImg =>
          match env.pilOpen previewData with
          | none => none
          | some previewImg =>
            env.pilToPixbuf (compositePIL iconImg previewImg position)

/-- Decode a base64 field straight to a pixbuf and attach it
(the preview-only / icon-only / composite-fallback path): base64-decode,
load a pixbuf from the bytes, `set_hint("image-data", ...)`; any failure
in the enclosing `try` means no image. -/
def directImage (env : Env) (v : Json) : Option Pixbuf :=
  match b64field env v with
  | none => none
  | some bytes =>
    match env.pixbufFromBytes bytes with
    | none => none
    | some pb => if env.attachOk pb then some pb else none

/-- A log entry emitted only when verbose (the image-path prints are all
guarded by `VERBOSE`). -/
def logIf (verbose : Bool) (l : LogLine) : List LogLine :=
  if verbose then [l] else []

/-- The four mutually exclusive image cases (source lines 303-424),
selected by Python truthiness of the two fields; returns the log entries
of the taken path and the attached image, `none` when every attempted
step of the taken case failed. -/
def selectImage (env : Env) (verbose : Bool) (icon preview : Json) :
    List LogLine × Option Pixbuf :=
  if preview.truthy && icon.truthy then
    let head := logIf verbose .compositeAttempt
    match create_composite_image env icon preview "bottom-right" with
    | some pb =>
      if env.attachOk pb then (head ++ logIf verbose .compositeSet, some pb)
      else (head ++ logIf verbose .compositeSetError, none)
    | none =>
      let head := head ++ logIf verbose .compositeFallback
      match directImage env preview with
      | some pb => (head ++ logIf verbose .previewSet, some pb)
      | none => (head ++ logIf verbose .previewError, none)
  else if preview.truthy then
    match directImage env preview with
    | some pb => (logIf verbose .previewSet, some pb)
    | none => (logIf verbose .previewError, none)
  else if icon.truthy then
    match directImage env icon with
    | some pb => (logIf verbose .iconSet, some pb)
    | none => (logIf verbose .iconError, none)
  else ([], none)

/-- The Request assembled for the sink: title `"{app}: {title}"` via
Python `str()`, raw body, mapped urgency, category hint when truthy,
and the selected image. -/
def buildRequest (env : Env) (e : Event) (image : Option Pixbuf) : Request where
  title := env.pyStr e.app ++ ": " ++ env.pyStr e.title
  body := e.text
  urgency := mapUrgency e.urgency
  category := if e.category.truthy then some e.category.asString else none
  image := image

/-- Processing of a decoded Event (source lines 250-430): the verbose log
block (which raises on a non-string urgency, caught by the outer generic
`except`), then `Notification.new` (raises on a non-string body), the
urgency, the category hint (raises on a truthy non-string category), the
image cases, and `show()`. -/
def processEvent (env : Env) (verbose : Bool) (e : Event) : List LogLine × Outcome :=
  if verbose && !e.urgency.isStr then ([.processingError], .processError)
  else
    let recv := if verbose then recvLog env e else []
    if !newOk e.text then (recv ++ [.showError], .showError)
    else if categoryBad e.category then (recv ++ [.showError], .showError)
    else
      let res := selectImage env verbose e.icon e.preview
      if env.showOk then (recv ++ res.1, .shown (buildRequest env e res.2))
      else (recv ++ res.1 ++ [.showError], .showError)

/-- The whole `on_message` handler on the parse outcome of one inbound
payload: `none` is a caught `JSONDecodeError`; a non-object JSON value
makes `data.get` raise `AttributeError`, caught by the generic `except`;
an object is decoded and processed.  Returns the updated global state and
the outcome. -/
def handle (env : Env) (s : State) (payload : Option Json) : State × Outcome :=
  match payload with
  | none => ({ s with log := s.log ++ [.malformedJson] }, .malformed)
  | some (.obj kvs) =>
    let r := processEvent env s.verbose (decodeEvent (.obj kvs))
    ({ s with log := s.log ++ r.1 }, r.2)
  | some _ => ({ s with log := s.log ++ [.processingError] }, .processError)

/-- A tiny concrete pixbuf used by the concrete environments below. -/
def pixbuf0 : Pixbuf where
  width := 1
  height := 1
  rowstride := 4
  hasAlpha := true
  bitsPerSample := 8
  nChannels := 4
  pixels := [0, 0, 0, 0]

/-- A concrete environment: Pillow present, sink healthy, `"AAAA"` is the
only string that base64-decodes, `0` the only convertible timestamp. -/
def envOK : Env where
  pilAvailable := true
  showOk := true
  b64decode := fun s => if s = "AAAA" then some [0, 0, 0] else none
  pilOpen := fun _ => some (PILImage.source 10 10 [])
  pixbufFromBytes := fun _ => some pixbuf0
  pilToPixbuf := fun _ => some pixbuf0
  attachOk := fun _ => true
  formatTime := fun n => if n = 0 then some "1970-01-01 00:00:00" else none
  pyStr := Json.asString

/-- `envOK` with Pillow missing, so compositing always fails. -/
def envNoPIL : Env :=
  { envOK with pilAvailable := false }

/-- A concrete starting state (verbose, empty log). -/
def st0 : State where
  verbose := true
  log := []

/-- The all-defaults Event (empty JSON object). -/
def e0 : Event := decodeEvent (Json.obj [])

/-- The Request `envOK` produces for the all-defaults Event. -/
def req0 : Request := buildRequest envOK e0 none

/-- An Event carrying both image fields (valid base64 for `envOK`). -/
def eBoth : Event :=
  decodeEvent (Json.obj [("icon", Json.str "AAAA"), ("previewImage", Json.str "AAAA")])

/-- An Event whose icon is invalid base64 and that has no preview. -/
def eBadIcon : Event := decodeEvent (Json.obj [("icon", Json.str "!!!")])

/-- An Event with a timestamp `envOK` cannot convert. -/
def eTs : Event := decodeEvent (Json.obj [("timestamp", Json.num 99999999999999)])

theorem processEvent_snd (env : Env) (vb : Bool) (e : Event) :
    (processEvent env vb e).2 =
      if vb && !e.urgency.isStr then .processError
      else if !newOk e.text then .showError
      else if categoryBad e.category then .showError
      else if env.showOk then
        .shown (buildRequest env e (selectImage env vb e.icon e.preview).2)
      else .showError := by
  cases h1 : vb && !e.urgency.isStr <;> cases h2 : !newOk e.text <;>
    cases h3 : categoryBad e.category <;> cases h4 : env.showOk <;>
    simp [processEvent, h1, h2, h3, h4]

theorem buildRequest_congr (env : Env) (img : Option Pixbuf) {e1 e2 : Event}
    (happ : e1.app = e2.app) (htitle : e1.title = e2.title)
    (htext : e1.text = e2.text) (hurg : e1.urgency = e2.urgency)
    (hcat : e1.category = e2.category) :
    buildRequest env e1 img = buildRequest env e2 img := by
  simp only [buildRequest]
  rw [happ, htitle, htext, hurg, hcat]

theorem processEvent_snd_congr (env : Env) (vb : Bool) {e1 e2 : Event}
    (happ : e1.app = e2.app) (htitle : e1.title = e2.title)
    (htext : e1.text = e2.text) (hurg : e1.urgency = e2.urgency)
    (hcat : e1.category = e2.category) (hicon : e1.icon = e2.icon)
    (hprev : e1.preview = e2.preview) :
    (processEvent env vb e1).2 = (processEvent env vb e2).2 := by
  rw [processEvent_snd, processEvent_snd, hurg, htext, hcat, hicon, hprev,
    buildRequest_congr env _ happ htitle htext hurg hcat]

theorem handle_snd (env : Env) (s : State) (p : Option Json) :
    (handle env s p).2 =
      match p with
      | none => .malformed
      | some (.obj kvs) => (processEvent env s.verbose (decodeEvent (.obj kvs))).2
      | some _ => .processError := by
  cases p with
  | none => rfl
  | some j => cases j <;> rfl

theorem handle_verbose (env : Env) (s : State) (p : Option Json) :
    (handle env s p).1.verbose = s.verbose := by
  cases p with
  | none => rfl
  | some j => cases j <;> rfl

theorem processEvent_snd_formatTime (env : Env) (f : Int → Option String)
    (vb : Bool) (e : Event) :
    (processEvent { env with formatTime := f } vb e).2 = (processEvent env vb e).2 := by
  rw [processEvent_snd, processEvent_snd]
  rfl

/-- Claim C1: for every decoded Event, the urgency string maps to the
notification urgency as `"high"` to critical, `"low"` or `"minimal"` to
low, and any other value (including unrecognized strings and
case-mismatched strings such as `"LOW"`) to normal; only exact lowercase
matches are recognized, and a shown Request's urgency is exactly this
mapping of the Event's urgency field. -/
theorem c1_urgency_mapping (env : Env) (vb : Bool) (e : Event) (req : Request)
    (s : String) (h1 : s ≠ "high") (h2 : s ≠ "low") (h3 : s ≠ "minimal")
    (hshown : (processEvent env vb e).2 = .shown req) :
    mapUrgency (.str "high") = .critical ∧
    mapUrgency (.str "low") = .low ∧
    mapUrgency (.str "minimal") = .low ∧
    mapUrgency (.str s) = .normal ∧
    mapUrgency (.str "LOW") = .normal ∧
    req.urgency = mapUrgency e.urgency := by
  refine ⟨rfl, rfl, rfl, ?_, rfl, ?_⟩
  · simp [mapUrgency, Json.eqStr, h1, h2, h3]
  · rw [processEvent_snd] at hshown
    split at hshown
    · exact Outcome.noConfusion hshown
    · split at hshown
      · exact Outcome.noConfusion hshown
      · split at hshown
        · exact Outcome.noConfusion hshown
        · split at hshown
          · injection hshown with h
            rw [← h]
            rfl
          · exact Outcome.noConfusion hshown

theorem c1_urgency_mapping_witness :
    mapUrgency (.str "high") = .critical ∧
    mapUrgency (.str "low") = .low ∧
    mapUrgency (.str "minimal") = .low ∧
    mapUrgency (.str "LOW") = .normal ∧
    mapUrgency (.str "LOW") = .normal ∧
    req0.urgency = mapUrgency e0.urgency :=
  c1_urgency_mapping envOK false e0 req0 "LOW" (by decide) (by decide) (by decide) rfl

/-- Claim C2, amended: for every valid JSON object payload, a field that is
missing gets the documented default; a field that is present keeps its
stored value even when wrong-typed (the code uses `dict.get`, which does
no type checking); decoding an object payload never signals
MalformedPayload.  The original claim's "or has the wrong type" fails, see
the counterexample. -/
theorem c2_defaults (env : Env) (s : State)
    (kvs kvs2 : List (String × Json)) (w : Json)
    (hp : lookupKey kvs "package" = none) (ha : lookupKey kvs "app" = none)
    (ht : lookupKey kvs "title" = none) (hx : lookupKey kvs "text" = none)
    (hts : lookupKey kvs "timestamp" = none)
    (him : lookupKey kvs "importance" = none)
    (hu : lookupKey kvs "urgency" = none)
    (hc : lookupKey kvs "category" = none)
    (hi : lookupKey kvs "icon" = none)
    (hpr : lookupKey kvs "previewImage" = none)
    (hw : lookupKey kvs2 "package" = some w) :
    decodeEvent (Json.obj kvs) =
      { package := .str "unknown", app := .str "Unknown App",
        title := .str "Notification", text := .str "", timestamp := .num 0,
        importance := .num 3, urgency := .str "normal", category := .str "",
        icon := .null, preview := .null } ∧
    (decodeEvent (Json.obj kvs2)).package = w ∧
    (handle env s (some (Json.obj kvs))).2 ≠ .malformed := by
  refine ⟨?_, ?_, ?_⟩
  · simp [decodeEvent, jgetD, jget, hp, ha, ht, hx, hts, him, hu, hc, hi, hpr]
  · simp [decodeEvent, jgetD, jget, hw]
  · rw [handle_snd]
    show (processEvent env s.verbose (decodeEvent (Json.obj kvs))).2 ≠ .malformed
    rw [processEvent_snd]
    split
    · exact Outcome.noConfusion
    · split
      · exact Outcome.noConfusion
      · split
        · exact Outcome.noConfusion
        · split
          · exact Outcome.noConfusion
          · exact Outcome.noConfusion

theorem c2_defaults_witness :
    decodeEvent (Json.obj [("other", Json.num 1)]) =
      { package := .str "unknown", app := .str "Unknown App",
        title := .str "Notification", text := .str "", timestamp := .num 0,
        importance := .num 3, urgency := .str "normal", category := .str "",
        icon := .null, preview := .null } ∧
    (decodeEvent (Json.obj [("package", Json.bool true)])).package = Json.bool true ∧
    (handle envOK st0 (some (Json.obj [("other", Json.num 1)]))).2 ≠ .malformed :=
  c2_defaults envOK st0 [("other", Json.num 1)] [("package", Json.bool true)]
    (Json.bool true) rfl rfl rfl rfl rfl rfl rfl rfl rfl rfl rfl

/-- Claim C2, counterexample: a present field of the wrong type is NOT
replaced by the documented default — a payload whose `package` is the
number 42 decodes with `package = 42`, not `"unknown"`. -/
theorem c2_wrong_type_counterexample :
    (decodeEvent (Json.obj [("package", Json.num 42)])).package = Json.num 42 ∧
    Json.num 42 ≠ Json.str "unknown" :=
  ⟨rfl, fun h => Json.noConfusion h⟩

/-- Claim C3: an inbound payload that is not valid JSON text (a caught
`json.JSONDecodeError`, modelled as parse outcome `none`) makes the
handler log the malformed-payload error and discard the message: the
outcome is `malformed`, which carries no Request, the state is unchanged
except for the appended log line, and no exception escapes (the handler
returns normally). -/
theorem c3_malformed_payload (env : Env) (s : State) :
    handle env s none = ({ s with log := s.log ++ [.malformedJson] }, .malformed) :=
  rfl

/-- Claim C8: resolving the same message twice produces structurally
identical outcomes (hence identical shown Requests): the handler's only
state effects are appended log lines, and the outcome depends on the
state only through the unchanged verbose flag — no hidden counters or
state carry between invocations. -/
theorem c8_resolution_deterministic (env : Env) (s : State) (p : Option Json) :
    (handle env (handle env s p).1 p).2 = (handle env s p).2 := by
  have hv := handle_verbose env s p
  rw [handle_snd, handle_snd, hv]

/-- Claim C4: the Compositor resizes the icon to exactly 64x64 with the
LANCZOS filter and pastes it (as the outermost operation on the composite)
at the placement computed from the chosen corner with an 8-pixel margin
from each edge; any corner value other than the four recognized names
falls back to the top-left margin position (8, 8). -/
theorem c4_composite_geometry (w h : Int) (i p : PILImage) (pos q : String)
    (h1 : pos ≠ "bottom-right") (h2 : pos ≠ "top-right")
    (h3 : pos ≠ "top-left") (h4 : pos ≠ "bottom-left") :
    iconPlacement w h "bottom-right" = (w - 64 - 8, h - 64 - 8) ∧
    iconPlacement w h "top-right" = (w - 64 - 8, 8) ∧
    iconPlacement w h "top-left" = (8, 8) ∧
    iconPlacement w h "bottom-left" = (8, h - 64 - 8) ∧
    iconPlacement w h pos = (8, 8) ∧
    (PILImage.resized i 64 64 .lanczos).width = 64 ∧
    (PILImage.resized i 64 64 .lanczos).height = 64 ∧
    (compositePIL i p q).topOverlay = some (PILImage.resized i 64 64 .lanczos) ∧
    (compositePIL i p q).topXY = some (iconPlacement p.width p.height q) := by
  refine ⟨rfl, rfl, rfl, rfl, ?_, rfl, rfl, rfl, rfl⟩
  simp [iconPlacement, h1, h2, h3, h4]

theorem c4_composite_geometry_witness :
    iconPlacement 300 200 "bottom-right" = (300 - 64 - 8, 200 - 64 - 8) ∧
    iconPlacement 300 200 "top-right" = (300 - 64 - 8, 8) ∧
    iconPlacement 300 200 "top-left" = (8, 8) ∧
    iconPlacement 300 200 "bottom-left" = (8, 200 - 64 - 8) ∧
    iconPlacement 300 200 "center" = (8, 8) ∧
    (PILImage.resized (PILImage.source 128 128 []) 64 64 .lanczos).width = 64 ∧
    (PILImage.resized (PILImage.source 128 128 []) 64 64 .lanczos).height = 64 ∧
    (compositePIL (PILImage.source 128 128 []) (PILImage.source 300 200 [])
        "top-right").topOverlay =
      some (PILImage.resized (PILImage.source 128 128 []) 64 64 .lanczos) ∧
    (compositePIL (PILImage.source 128 128 []) (PILImage.source 300 200 [])
        "top-right").topXY =
      some (iconPlacement (PILImage.source 300 200 []).width
        (PILImage.source 300 200 []).height "top-right") :=
  c4_composite_geometry 300 200 (PILImage.source 128 128 [])
    (PILImage.source 300 200 []) "center" "top-right"
    (by decide) (by decide) (by decide) (by decide)

/-- Claim C9: image-field presence is decided by Python truthiness, not
key presence — a falsy icon or preview value (such as the empty string)
makes the selection behave exactly as if the field were absent (`None`),
so the remaining non-empty field's case (or the no-image case) is
selected, and two falsy fields produce the no-image result for every
environment (the falsy value's decoding is never attempted: the result
does not depend on any decoding oracle). -/
theorem c9_falsy_image_absent (env : Env) (vb : Bool) (v p i : Json)
    (hv : v.truthy = false) :
    selectImage env vb v p = selectImage env vb Json.null p ∧
    selectImage env vb i v = selectImage env vb i Json.null ∧
    selectImage env vb v v = ([], none) := by
  have hnull : Json.truthy Json.null = false := rfl
  refine ⟨?_, ?_, ?_⟩ <;> simp [selectImage, hv, hnull]

theorem c9_falsy_image_absent_witness :
    selectImage envOK true (Json.str "") (Json.str "AAAA") =
      selectImage envOK true Json.null (Json.str "AAAA") ∧
    selectImage envOK true (Json.str "AAAA") (Json.str "") =
      selectImage envOK true (Json.str "AAAA") Json.null ∧
    selectImage envOK true (Json.str "") (Json.str "") = ([], none) :=
  c9_falsy_image_absent envOK true (Json.str "") (Json.str "AAAA")
    (Json.str "AAAA") rfl

/-- Claim C5: every failing step of compositing (Pillow unavailable, a
base64 decode failure of either input, a PIL open failure, the final
pixbuf conversion failure) makes `create_composite_image` return `None`
(the embedding is a pure function, so no partially-applied state can
remain), and when both icon and preview are present and compositing
fails, the handler selects exactly the preview-only presentation (the
same image, and the same outcome as the icon-less event) instead of
aborting the notification. -/
theorem c5_compositor_failure (env : Env) (vb : Bool) (e : Event) (pos : String)
    (ib pb : Bytes) (ii pi : PILImage) :
    (env.pilAvailable = false →
      create_composite_image env e.icon e.preview pos = none) ∧
    (b64field env e.icon = none →
      create_composite_image env e.icon e.preview pos = none) ∧
    (b64field env e.preview = none →
      create_composite_image env e.icon e.preview pos = none) ∧
    (b64field env e.icon = some ib → env.pilOpen ib = none →
      create_composite_image env e.icon e.preview pos = none) ∧
    (b64field env e.icon = some ib → b64field env e.preview = some pb →
      env.pilOpen ib = some ii → env.pilOpen pb = some pi →
      env.pilToPixbuf (compositePIL ii pi pos) = none →
      create_composite_image env e.icon e.preview pos = none) ∧
    (e.icon.truthy = true → e.preview.truthy = true →
      create_composite_image env e.icon e.preview "bottom-right" = none →
      (selectImage env vb e.icon e.preview).2 =
        (selectImage env vb Json.null e.preview).2 ∧
      (processEvent env vb e).2 =
        (processEvent env vb { e with icon := Json.null }).2) := by
  refine ⟨?_, ?_, ?_, ?_, ?_, ?_⟩
  · intro h
    simp [create_composite_image, h]
  · intro h
    cases hpil : env.pilAvailable <;> simp [create_composite_image, hpil, h]
  · intro h
    cases hpil : env.pilAvailable <;> cases hbi : b64field env e.icon <;>
      simp [create_composite_image, hpil, hbi, h]
  · intro hib hio
    cases hpil : env.pilAvailable <;> cases hbp : b64field env e.preview <;>
      simp [create_composite_image, hpil, hib, hbp, hio]
  · intro hib hbp hii hpi hpx
    cases hpil : env.pilAvailable <;>
      simp [create_composite_image, hpil, hib, hbp, hii, hpi, hpx]
  · intro hic hpr hcomp
    have hnull : Json.truthy Json.null = false := rfl
    have hsel : (selectImage env vb e.icon e.preview).2 =
        (selectImage env vb Json.null e.preview).2 := by
      cases hdi : directImage env e.preview <;>
        simp [selectImage, hic, hpr, hnull, hcomp, hdi]
    refine ⟨hsel, ?_⟩
    rw [processEvent_snd, processEvent_snd]
    dsimp only
    rw [hsel]
    simp only [buildRequest]

theorem c5_compositor_failure_witness :
    create_composite_image envNoPIL eBoth.icon eBoth.preview "bottom-right" = none ∧
    (selectImage envNoPIL true eBoth.icon eBoth.preview).2 =
      (selectImage envNoPIL true Json.null eBoth.preview).2 ∧
    (processEvent envNoPIL true eBoth).2 =
      (processEvent envNoPIL true { eBoth with icon := Json.null }).2 :=
  have h := c5_compositor_failure envNoPIL true eBoth "bottom-right" [] []
    (PILImage.source 1 1 []) (PILImage.source 1 1 [])
  ⟨h.1 rfl, (h.2.2.2.2.2 rfl rfl (h.1 rfl)).1, (h.2.2.2.2.2 rfl rfl (h.1 rfl)).2⟩

/-- Claim C6: when every attempted step of the selected image case fails
(for example an icon that is invalid base64 with no preview), the failure
is absorbed locally: the handler's outcome is exactly the outcome for the
same Event with no image fields at all (so the notification is still
shown whenever that plain notification is shown, and nothing escapes the
handler), and a shown Request carries no image attachment. -/
theorem c6_image_failure_still_shown (env : Env) (vb : Bool) (e : Event)
    (req : Request)
    (hfail : (selectImage env vb e.icon e.preview).2 = none)
    (hshown : (processEvent env vb e).2 = .shown req) :
    (processEvent env vb e).2 =
      (processEvent env vb { e with icon := Json.null, preview := Json.null }).2 ∧
    req.image = none := by
  constructor
  · rw [processEvent_snd, processEvent_snd]
    dsimp only
    rw [hfail]
    have hsel : (selectImage env vb Json.null Json.null).2 = none := rfl
    rw [hsel]
    simp only [buildRequest]
  · rw [processEvent_snd] at hshown
    split at hshown
    · exact Outcome.noConfusion hshown
    · split at hshown
      · exact Outcome.noConfusion hshown
      · split at hshown
        · exact Outcome.noConfusion hshown
        · split at hshown
          · injection hshown with h
            rw [← h]
            exact hfail
          · exact Outcome.noConfusion hshown

theorem c6_image_failure_still_shown_witness :
    (processEvent envOK false eBadIcon).2 =
      (processEvent envOK false
        { eBadIcon with icon := Json.null, preview := Json.null }).2 ∧
    (buildRequest envOK eBadIcon none).image = none :=
  c6_image_failure_still_shown envOK false eBadIcon
    (buildRequest envOK eBadIcon none) rfl rfl

/-- Claim C7: the timestamp field (milliseconds since epoch) is converted
to a display timestamp; when the conversion fails (the oracle returns
`none`, e.g. a value out of representable range) the display string is
the literal `"Unknown"` sentinel, the verbose log still carries a Time
entry with that display string, the decoded Event still carries the raw
field, and the handler's outcome does not depend on the conversion at
all (replacing the conversion oracle never changes the outcome). -/
theorem c7_timestamp_degradation (env : Env) (f : Int → Option String)
    (s : State) (p : Option Json) (e : Event) (n : Int) (data : Json)
    (hn : e.timestamp = Json.num n) (hf : env.formatTime n = none) :
    formatTimestamp env e.timestamp = "Unknown" ∧
    LogLine.field "Time" (formatTimestamp env e.timestamp) ∈ recvLog env e ∧
    (decodeEvent data).timestamp = jgetD data "timestamp" (Json.num 0) ∧
    (handle { env with formatTime := f } s p).2 = (handle env s p).2 := by
  refine ⟨?_, ?_, rfl, ?_⟩
  · rw [hn]
    simp [formatTimestamp, hf]
  · simp [recvLog]
  · rw [handle_snd, handle_snd]
    cases p with
    | none => rfl
    | some j =>
      cases j
      case obj kvs =>
        exact processEvent_snd_formatTime env f s.verbose (decodeEvent (Json.obj kvs))
      all_goals rfl

theorem c7_timestamp_degradation_witness :
    formatTimestamp envOK eTs.timestamp = "Unknown" ∧
    LogLine.field "Time" (formatTimestamp envOK eTs.timestamp) ∈ recvLog envOK eTs ∧
    (decodeEvent (Json.obj [])).timestamp = jgetD (Json.obj []) "timestamp" (Json.num 0) ∧
    (handle { envOK with formatTime := fun _ => none } st0 (some (Json.obj []))).2 =
      (handle envOK st0 (some (Json.obj []))).2 :=
  c7_timestamp_degradation envOK (fun _ => none) st0 (some (Json.obj [])) eTs
    99999999999999 (Json.obj []) rfl rfl

/-- Claim C10: the `importance` field never influences the produced
outcome (and hence the shown Request): for any two payloads whose fields
agree on every key other than `"importance"`, the handler produces the
same outcome; importance is only echoed into the console log. -/
theorem c10_importance_no_influence (env : Env) (s : State)
    (d1 d2 : List (String × Json))
    (h : ∀ k, k ≠ "importance" → lookupKey d1 k = lookupKey d2 k) :
    (handle env s (some (Json.obj d1))).2 = (handle env s (some (Json.obj d2))).2 := by
  rw [handle_snd, handle_snd]
  show (processEvent env s.verbose (decodeEvent (Json.obj d1))).2 =
    (processEvent env s.verbose (decodeEvent (Json.obj d2))).2
  refine processEvent_snd_congr env s.verbose ?_ ?_ ?_ ?_ ?_ ?_ ?_ <;>
    simp only [decodeEvent, jgetD, jget]
  · rw [h "app" (by decide)]
  · rw [h "title" (by decide)]
  · rw [h "text" (by decide)]
  · rw [h "urgency" (by decide)]
  · rw [h "category" (by decide)]
  · rw [h "icon" (by decide)]
  · rw [h "previewImage" (by decide)]

theorem c10_importance_no_influence_witness :
    (handle envOK st0 (some (Json.obj [("importance", Json.num 1)]))).2 =
      (handle envOK st0 (some (Json.obj [("importance", Json.num 99)]))).2 :=
  c10_importance_no_influence envOK st0
    [("importance", Json.num 1)] [("importance", Json.num 99)] (by
      intro k hk
      simp only [lookupKey]
      rw [if_neg (fun hh => hk hh.symm), if_neg (fun hh => hk hh.symm)])

end Mqtt2Notif
